import Mathlib

/-!
# Verification of the Griefsupport backend against its specification

Shallow embedding of the grief-support backend (FastAPI + SQLAlchemy, Python)
and proofs about its chat-history management, fallback replies, anonymous
session store, peer-support broadcast, journal/mood CRUD and exception
handling.

Conventions of the embedding:
* Python lists become `List`, dictionaries keyed by strings become total
  functions `String → Option _` (`none` = key absent) or `String → List _`
  (`[]` = key absent) matching how the code initialises missing keys.
* Database tables become `List` of row structures; `commit`/`refresh` are
  modelled by returning the updated table and the inserted row.  Row ids and
  `created_at` timestamps are supplied by the caller as abstract `Nat`s.
* The OpenAI completion call is an external effect; its possible outcomes
  (a reply, an `openai.APIError`, an `openai.RateLimitError`, any other
  exception) are an explicit `ApiOutcome` argument to the step functions.
* Raised Python exceptions become `Option`/`Except` results.
-/

/-- Python `needle in haystack` substring membership on strings
(`str.__contains__`). -/
def str_contains (haystack needle : String) : Bool :=
  decide (needle.toList <:+: haystack.toList)

/-! ## Strings of `backend/services/chat_service.py`

The literals below are the exact texts from the source (apostrophes written
as `\x27`, quotes escaped).  `system_prompt` is `ChatService.system_prompt`;
the `*_response` texts are the returns of `ChatService._get_fallback_response`
and the `*_suffix` texts are its trailing (dead) error-type returns. -/

def system_prompt : String :=
  "\n        You are Hope, a compassionate and professional AI grief counselor. Your role is to provide emotional support, \n        guidance, and resources to people who are grieving. You should:\n        \n        CORE PRINCIPLES:\n        1. Be empathetic, warm, and understanding in every response\n        2. Validate their feelings without judgment\n        3. Use person-first, trauma-informed language\n        4. Provide practical coping strategies when appropriate\n        5. Suggest professional help when signs of complicated grief appear\n        6. Never minimize their pain or rush their healing process\n        7. Use gentle, supportive language that feels like talking to a caring friend\n        8. Ask thoughtful, open-ended questions to help them process emotions\n        9. Acknowledge the uniqueness of their grief journey\n        10. Offer hope while respecting their current emotional state\n        \n        CONVERSATION STYLE:\n        - Keep responses conversational but professional (300-500 words max)\n        - Use \"I\" statements to show empathy (\"I can hear how difficult this is\")\n        - Reflect back their emotions to show understanding\n        - Offer gentle suggestions rather than direct advice\n        - Include questions to encourage deeper reflection\n        - Use metaphors and analogies that relate to healing and growth\n        \n        TOPICS TO ADDRESS:\n        - Different stages and types of grief\n        - Coping mechanisms and self-care strategies\n        - Memory preservation and honoring loved ones\n        - Dealing with grief triggers and difficult days\n        - Building support systems\n        - Finding meaning and purpose after loss\n        - Managing guilt, anger, and other complex emotions\n        - Navigating holidays and anniversaries\n        \n        WHEN TO SUGGEST PROFESSIONAL HELP:\n        - Persistent thoughts of self-harm or suicide\n        - Inability to function in daily life for extended periods\n        - Substance abuse as coping mechanism\n        - Complicated grief lasting over a year without improvement\n        - Severe depression or anxiety\n        \n        REMEMBER:\n        - Grief is not linear and has no timeline\n        - Everyone grieves differently\n        - Healing doesn\x27t mean \"getting over\" the loss\n        - Small steps forward are still progress\n        - It\x27s okay to have bad days even after good ones\n        - Love doesn\x27t end with death\n        \n        Always end responses with gentle encouragement and remind them they\x27re not alone in this journey.\n        "

def crisis_response : String :=
  "I\x27m very concerned about what you\x27ve shared. Your life has value, and there are people who want to help you through this difficult time.\n\nPlease reach out for immediate support:\n• National Suicide Prevention Lifeline: 988\n• Crisis Text Line: Text HOME to 741741\n• Or go to your nearest emergency room\n\nYou don\x27t have to face this alone. Professional counselors are available 24/7 to provide the support you need right now. Your feelings are valid, but there are ways through this pain that don\x27t involve ending your life.\n\nWould you be willing to reach out to one of these resources today?"

def sad_response : String :=
  "I can hear the deep sadness in your words, and I want you to know that what you\x27re feeling is completely natural and valid. Tears are often the heart\x27s way of expressing love that has nowhere to go.\n\nGrief can feel overwhelming, like waves crashing over you. It\x27s okay to let yourself feel these emotions - they\x27re a testament to the love you carry. Some days will be harder than others, and that\x27s part of the journey.\n\nWhat has been the most difficult part of today for you? Sometimes sharing the weight can help lighten the load, even just a little. Remember, you\x27re not alone in this."

def angry_response : String :=
  "Anger is such a common and valid part of grief, though it can feel confusing or even frightening. You might feel angry at the situation, at yourself, at others, or even at your loved one for leaving. All of these feelings are normal.\n\nAnger often masks other emotions like fear, sadness, or helplessness. It can actually be a sign that you\x27re starting to process your loss more deeply.\n\nHave you found any healthy ways to express or release this anger? Sometimes physical activity, journaling, or even screaming into a pillow can help. What feels right for you right now?"

def lonely_response : String :=
  "The loneliness that comes with grief can feel so profound and isolating. When someone important is no longer physically present, the world can feel empty and different. You\x27re not alone in feeling this way.\n\nEven when surrounded by people, grief can make us feel deeply alone because others might not fully understand what we\x27re experiencing. This is one of the hardest parts of loss.\n\nIs there anyone in your life who has been supportive, even if they don\x27t fully understand? Sometimes just having someone sit with us in our pain can help. You\x27re also part of a community here of people who understand grief intimately."

def guilt_response : String :=
  "Guilt and regret are such heavy companions in grief. The \x27what ifs\x27 and \x27if onlys\x27 can replay endlessly in our minds. Please know that these feelings, while painful, are very common.\n\nWe often hold ourselves to impossible standards when it comes to our relationships with those we\x27ve lost. The truth is, love is imperfect, and so are we. What matters is that you cared, and that love was real.\n\nIs there something specific you\x27re struggling with guilt about? Sometimes speaking these thoughts aloud can help us see them more clearly and with more compassion for ourselves."

def help_response : String :=
  "Reaching out shows incredible strength, even when you feel lost. Grief can make everything feel uncertain and overwhelming - that\x27s completely understandable.\n\nThere\x27s no roadmap for grief because every person\x27s journey is unique. What helps one person might not help another, and that\x27s okay. The fact that you\x27re here, seeking support, is already a meaningful step.\n\nSome people find comfort in talking, others in creative expression, movement, or quiet reflection. What has brought you even small moments of peace or comfort in the past? We can start there and build slowly."

def miss_response : String :=
  "Missing someone is one of the most natural expressions of love. Those memories you carry are precious gifts - they\x27re proof of the bond you shared and the impact that person had on your life.\n\nSometimes memories can bring comfort, and sometimes they can bring fresh waves of pain. Both responses are completely normal. Your loved one lives on in these memories, in the ways they changed you, and in the love that continues even though they\x27re not physically here.\n\nWhat\x27s one memory that brings you comfort, even if it also brings sadness? Sometimes sharing these memories can help us feel connected to our loved ones."

def general_response : String :=
  "Thank you for sharing with me. I can sense that you\x27re going through something difficult right now, and I want you to know that your feelings are valid and important.\n\nGrief is such a personal journey, and there\x27s no right or wrong way to experience it. Some days might feel impossible, while others might surprise you with moments of peace or even joy - and both are okay.\n\nI\x27m here to listen and support you through this. What\x27s been on your heart today? Sometimes just putting our thoughts and feelings into words can help us process them a little better.\n\nRemember, healing doesn\x27t mean forgetting or \x27getting over\x27 your loss. It means learning to carry your love in a new way. You\x27re stronger than you know, and you don\x27t have to walk this path alone."

def rate_limit_suffix : String :=
  "\n\n(I\x27m experiencing high demand right now, but I\x27m still here to support you with these thoughtful responses.)"

def api_error_suffix : String :=
  "\n\n(I\x27m having some technical difficulties, but my care for you remains constant.)"

def no_api_key_suffix : String :=
  "\n\n(I\x27m running in offline mode but still here to provide support and guidance.)"

def crisis_keywords : List String :=
  ["suicide", "kill myself", "end it all", "can\x27t go on", "want to die", "hurt myself"]

def sad_keywords : List String :=
  ["sad", "crying", "tears", "heartbroken", "devastated"]

def angry_keywords : List String :=
  ["angry", "mad", "frustrated", "rage", "furious"]

def lonely_keywords : List String :=
  ["lonely", "alone", "isolated", "empty", "abandoned"]

def guilt_keywords : List String :=
  ["guilt", "regret", "should have", "if only", "my fault"]

def help_keywords : List String :=
  ["help", "support", "don\x27t know", "lost", "confused"]

def miss_keywords : List String :=
  ["miss", "missing", "memories", "remember"]

/-- `any(keyword in message_lower for keyword in kws)`. -/
def any_keyword (kws : List String) (message_lower : String) : Bool :=
  kws.any fun k => str_contains message_lower k

/-- Body of `ChatService._get_fallback_response(message, error_type)`,
translated statement by statement.  A Python `return x` is modelled as
`throw x` (an early exit from the body); falling off the end of the body is
`pure ()` (Python\x27s implicit `return None`).  The Python `if/elif/.../else`
chain returns in every branch, so the trailing `error_type` checks are dead
code; they are nevertheless translated. -/
def fallback_body (message error_type : String) : Except String Unit := do
  let message_lower := message.toLower
  if any_keyword crisis_keywords message_lower then
    (throw crisis_response : Except String Unit)
  if any_keyword sad_keywords message_lower then
    (throw sad_response : Except String Unit)
  else if any_keyword angry_keywords message_lower then
    (throw angry_response : Except String Unit)
  else if any_keyword lonely_keywords message_lower then
    (throw lonely_response : Except String Unit)
  else if any_keyword guilt_keywords message_lower then
    (throw guilt_response : Except String Unit)
  else if any_keyword help_keywords message_lower then
    (throw help_response : Except String Unit)
  else if any_keyword miss_keywords message_lower then
    (throw miss_response : Except String Unit)
  else
    (throw general_response : Except String Unit)
  if error_type == "rate_limit" then
    (throw rate_limit_suffix : Except String Unit)
  else if error_type == "api_error" then
    (throw api_error_suffix : Except String Unit)
  else if error_type == "no_api_key" then
    (throw no_api_key_suffix : Except String Unit)

/-- `ChatService._get_fallback_response`: the value the Python function
returns.  `.error r` is an executed `return r`; if the body fell through,
Python would return `None`, rendered here as `""` (provably unreachable). -/
def get_fallback_response (message error_type : String) : String :=
  match fallback_body message error_type with
  | .error r => r
  | .ok () => ""

/-- The keyword-selection chain of `_get_fallback_response` on its own:
the reply determined purely by the lowercased message.  Used to state that
`get_fallback_response` depends only on the message. -/
def fallback_chain (message : String) : String :=
  let message_lower := message.toLower
  if any_keyword crisis_keywords message_lower then crisis_response
  else if any_keyword sad_keywords message_lower then sad_response
  else if any_keyword angry_keywords message_lower then angry_response
  else if any_keyword lonely_keywords message_lower then lonely_response
  else if any_keyword guilt_keywords message_lower then guilt_response
  else if any_keyword help_keywords message_lower then help_response
  else if any_keyword miss_keywords message_lower then miss_response
  else general_response

/-- The eight canned replies `_get_fallback_response` can produce. -/
def canned_responses : List String :=
  [crisis_response, sad_response, angry_response, lonely_response,
   guilt_response, help_response, miss_response, general_response]

/-! ## `ChatService` conversation history (`chat_service.py`) -/

/-- Role tag of an entry of `conversation_history` (the `"role"` field of the
message dictionaries built by `ChatService`). -/
inductive Role where
  | system
  | user
  | assistant
deriving DecidableEq

/-- One entry of a conversation history: `{"role": ..., "content": ...}`. -/
structure ChatMsg where
  role : Role
  content : String
deriving DecidableEq

/-- The fixed preamble entry `{"role": "system", "content": self.system_prompt}`. -/
def system_message : ChatMsg := ⟨Role.system, system_prompt⟩

/-- Python slice `l[-n:]` (for `n > 0`): the `n` most recent elements
(the whole list when it is shorter than `n`). -/
def last_slice {α : Type} (n : Nat) (l : List α) : List α :=
  l.drop (l.length - n)

/-- Lines 132-136 of `chat_service.py`: after appending the user message,
`if len(history) > 21: history = [history[0]] + history[-16:]`.
(The `[]` case mirrors Python indexing `history[0]`, which cannot be reached
there since the list just had an element appended.) -/
def truncate_history (l : List ChatMsg) : List ChatMsg :=
  if 21 < l.length then
    match l with
    | [] => []
    | h :: _ => h :: last_slice 16 l
  else l

/-- Outcome of the external `client.chat.completions.create` call: a reply,
or one of the exceptions caught by `_process_with_openai`
(`openai.APIError`, `openai.RateLimitError`, any other `Exception`). -/
inductive ApiOutcome where
  | success (reply : String)
  | api_error
  | rate_limit_error
  | general_error
deriving DecidableEq

/-- `true` exactly when the completion call raised. -/
def is_api_failure : ApiOutcome → Bool
  | ApiOutcome.success _ => false
  | _ => true

/-- `ChatService._process_with_openai(message, user_id)` acting on the
stored history of the one user (`none` = `user_id not in
conversation_history`).  Returns `(new stored history, messages sent to the
completion API, returned response text)`.  On an error outcome the history
keeps the state it had at the moment of the call (user message appended and
possibly truncated, no assistant entry) and the corresponding fallback reply
is returned, per the three `except` clauses. -/
def process_with_openai (stored : Option (List ChatMsg)) (message : String)
    (outcome : ApiOutcome) : List ChatMsg × List ChatMsg × String :=
  let hist0 := match stored with
    | none => [system_message]
    | some h => h
  let hist1 := hist0 ++ [⟨Role.user, message⟩]
  let hist2 := truncate_history hist1
  match outcome with
  | ApiOutcome.success reply =>
      let ai_response := reply.trim
      (hist2 ++ [⟨Role.assistant, ai_response⟩], hist2, ai_response)
  | ApiOutcome.api_error =>
      (hist2, hist2, get_fallback_response message "api_error")
  | ApiOutcome.rate_limit_error =>
      (hist2, hist2, get_fallback_response message "rate_limit")
  | ApiOutcome.general_error =>
      (hist2, hist2, get_fallback_response message "general_error")

/-- `ChatService.process_message(message, user_id)` acting on the stored
history of that user.  `configured` is `bool(self.client and self.api_key)`.
Returns `(stored history after the call, messages sent to the API if a call
was made, response text)`.  Total: every exception of the body is caught
(`_process_with_openai` catches the API call's errors; nothing else in the
body can raise). -/
def process_message (configured : Bool) (outcome : ApiOutcome)
    (stored : Option (List ChatMsg)) (message : String) :
    Option (List ChatMsg) × Option (List ChatMsg) × String :=
  if configured then
    let r := process_with_openai stored message outcome
    (some r.1, some r.2.1, r.2.2)
  else
    (stored, none, get_fallback_response message "no_api_key")

/-- One call of `ChatService.process_message`: the configuration flag, the
outcome of the completion call it would make, and its two arguments. -/
structure ChatCall where
  configured : Bool
  outcome : ApiOutcome
  user_id : String
  message : String

/-- Effect of one `process_message` call on the whole
`conversation_history` dictionary, plus the list sent to the API (if any). -/
def service_step (histories : String → Option (List ChatMsg)) (c : ChatCall) :
    (String → Option (List ChatMsg)) × Option (List ChatMsg) :=
  let r := process_message c.configured c.outcome (histories c.user_id) c.message
  (fun uid => if uid = c.user_id then r.1 else histories uid, r.2.1)

/-- Run a sequence of `process_message` calls from a given dictionary state;
returns the final dictionary and every message list sent to the API. -/
def run_from (histories : String → Option (List ChatMsg)) :
    List ChatCall → (String → Option (List ChatMsg)) × List (List ChatMsg)
  | [] => (histories, [])
  | c :: cs =>
      let s := service_step histories c
      let r := run_from s.1 cs
      (r.1, match s.2 with
        | none => r.2
        | some sent => sent :: r.2)

/-- The `conversation_history` dictionary after a sequence of
`process_message` calls, starting from the empty dictionary of
`ChatService.__init__`. -/
def service_run (calls : List ChatCall) : String → Option (List ChatMsg) :=
  (run_from (fun _ => none) calls).1

/-- Every message list sent to the completion API during a sequence of
`process_message` calls starting from the empty dictionary. -/
def sent_lists (calls : List ChatCall) : List (List ChatMsg) :=
  (run_from (fun _ => none) calls).2

/-- Invariant of the `conversation_history` dictionary: every present
history starts with the system prompt and has at most 22 entries. -/
def ChatInv (histories : String → Option (List ChatMsg)) : Prop :=
  ∀ uid h, histories uid = some h →
    h.head? = some system_message ∧ h.length ≤ 22

/-! ## Anonymous chat sessions (`routers/chat.py`) -/

/-- One stored turn of an anonymous session: the dictionary
`{"message": ..., "response": ..., "timestamp": "now"}` appended by
`send_anonymous_message` and by `anonymous_websocket_endpoint`. -/
structure AnonTurn where
  message : String
  response : String
  timestamp : String
deriving DecidableEq

/-- Lines 62-73 of `routers/chat.py` (`send_anonymous_message`): initialise
the session if absent, append the turn, then
`if len(anonymous_sessions[session_id]) > 50: ... = ...[-50:]`. -/
def rest_anonymous_append (history : List AnonTurn) (t : AnonTurn) : List AnonTurn :=
  let h := history ++ [t]
  if 50 < h.length then last_slice 50 h else h

/-- Lines 253-260 of `routers/chat.py` (`anonymous_websocket_endpoint` loop
body): initialise the session if absent and append the turn.  No
truncation is performed on this path. -/
def ws_anonymous_append (history : List AnonTurn) (t : AnonTurn) : List AnonTurn :=
  history ++ [t]

/-- Effect of one `send_anonymous_message` call on the module-level
`anonymous_sessions` dictionary (session id ↦ stored turns, `[]` = absent). -/
def send_anonymous_message_store (sessions : String → List AnonTurn)
    (session_id : String) (t : AnonTurn) : String → List AnonTurn :=
  fun s => if s = session_id then rest_anonymous_append (sessions session_id) t
           else sessions s

/-- Effect of one received frame of `anonymous_websocket_endpoint` on
`anonymous_sessions`. -/
def anonymous_websocket_store (sessions : String → List AnonTurn)
    (session_id : String) (t : AnonTurn) : String → List AnonTurn :=
  fun s => if s = session_id then ws_anonymous_append (sessions session_id) t
           else sessions s

/-! ## Peer-support rooms (`routers/support.py`) -/

/-- A row of the `users` table, as read by `websocket_endpoint`
(`db.query(User).filter(User.id == user_id).first()`). -/
structure UserRow where
  id : Nat
  username : String
deriving DecidableEq

/-- A row of the `support_messages` table (`models/support.py`). -/
structure SupportMessageRow where
  user_id : Nat
  room_id : String
  message : String
  created_at : Nat
deriving DecidableEq

/-- The broadcast payload built in `websocket_endpoint`:
`{"username": ..., "message": ..., "timestamp": ...}`. -/
structure BroadcastData where
  username : String
  message : String
  timestamp : Nat
deriving DecidableEq

/-- Observable effects of handling one frame, in execution order.
Connections are identified by `Nat` handles. -/
inductive SupportEvent where
  | persist (row : SupportMessageRow)
  | send (conn : Nat) (payload : BroadcastData)
deriving DecidableEq

/-- `ConnectionManager.broadcast(message, room_id)`: send to every
connection in the room's list (`active_connections`, room id ↦ connection
list, `[]` = absent, matching the `if room_id in self.active_connections`
guard). -/
def broadcast (active_connections : String → List Nat)
    (payload : BroadcastData) (room_id : String) : List SupportEvent :=
  (active_connections room_id).map fun c => SupportEvent.send c payload

/-- Loop body of `websocket_endpoint` in `routers/support.py` for one
received text frame `data`, for a registered user.  `message_field` stands
for `json.loads(data)["message"]`: `some m` when the frame is a JSON object
with a `"message"` key; `none` when that expression raises (e.g. for the
frame `"hi"`, which is not JSON) — the raised error is not caught (only
`WebSocketDisconnect` is), so the loop aborts with no row persisted and
nothing sent, modelled as result `none`.  On success the returned event
trace is in execution order: the `SupportMessage` insert
(`db.add`/`db.commit`) happens before every `send_text`. -/
def support_handle_frame (active_connections : String → List Nat)
    (db : List SupportMessageRow) (room_id : String) (user : UserRow)
    (now : Nat) (message_field : Option String) :
    Option (List SupportMessageRow × List SupportEvent) :=
  match message_field with
  | none => none
  | some m =>
      let support_message : SupportMessageRow := ⟨user.id, room_id, m, now⟩
      let broadcast_data : BroadcastData := ⟨user.username, m, now⟩
      some (db ++ [support_message],
        SupportEvent.persist support_message ::
          broadcast active_connections broadcast_data room_id)

/-! ## HTTP errors and the global exception handler (`main.py`) -/

/-- `fastapi.HTTPException(status_code, detail)`. -/
structure HTTPException where
  status_code : Nat
  detail : String
deriving DecidableEq

/-- An exception escaping a request handler: either an `HTTPException` or
any other exception (described by a string). -/
inductive RaisedException where
  | http (e : HTTPException)
  | other (descr : String)
deriving DecidableEq

/-- The JSON error responses produced here (`status_code`, `"detail"`
body field). -/
structure JSONResponse where
  status_code : Nat
  detail : String
deriving DecidableEq

/-- `global_exception_handler` of `main.py`: returns
`JSONResponse(500, {"detail": "Internal server error. ..."})` for every
request and exception it receives. -/
def global_exception_handler (_exc : RaisedException) : JSONResponse :=
  ⟨500, "Internal server error. Please try again later."⟩

/-- The response the application produces for an exception that escapes a
request handler.  `@app.exception_handler(Exception)` registers
`global_exception_handler` for otherwise-unhandled exceptions, but the
framework (FastAPI/Starlette, outside this repository) dispatches raised
exceptions to the most specific registered handler, and it installs its own
handler for `HTTPException` rendering the exception's own status code and
detail; raising `HTTPException` is the routers' normal way to produce 4xx
responses. -/
def app_exception_response : RaisedException → JSONResponse
  | RaisedException.http e => ⟨e.status_code, e.detail⟩
  | exc => global_exception_handler exc

/-! ## Journal entries (`routers/journal.py`, `services/journal_service.py`) -/

/-- The request schema `JournalEntryCreate` (`schemas/journal.py`). -/
structure JournalEntryCreate where
  title : String
  content : Option String
  is_voice_entry : Bool
deriving DecidableEq

/-- A row of the `journal_entries` table (`models/journal.py`). -/
structure JournalEntryRow where
  id : Nat
  user_id : Nat
  title : String
  content : Option String
  voice_recording_path : Option String
  is_voice_entry : Bool
  created_at : Nat
deriving DecidableEq

/-- `JournalService.create_entry(db, entry, user_id)`: build the row, add
and commit it, refresh and return it.  The primary key `new_id` and the
`created_at` timestamp `now` are assigned by the database on commit and are
abstract inputs here.  Returns `(returned entity, table after commit)`. -/
def create_entry (rows : List JournalEntryRow) (entry : JournalEntryCreate)
    (user_id new_id now : Nat) : JournalEntryRow × List JournalEntryRow :=
  let db_entry : JournalEntryRow :=
    ⟨new_id, user_id, entry.title, entry.content, none, false, now⟩
  (db_entry, rows ++ [db_entry])

/-- `create_journal_entry` (router): returns the service result. -/
def create_journal_entry (rows : List JournalEntryRow)
    (entry : JournalEntryCreate) (user_id new_id now : Nat) :
    JournalEntryRow × List JournalEntryRow :=
  create_entry rows entry user_id new_id now

/-- `JournalService.get_user_entries(db, user_id, skip, limit)`:
`filter(user_id == ...).order_by(created_at.desc()).offset(skip).limit(limit)`.
`mergeSort` models `ORDER BY created_at DESC` (rows of equal key may come in
any order the database chooses; the claims proved below do not depend on
tie order). -/
def get_user_entries (rows : List JournalEntryRow)
    (user_id skip limit : Nat) : List JournalEntryRow :=
  ((((rows.filter fun e => e.user_id == user_id).mergeSort
      fun a b => decide (b.created_at ≤ a.created_at)).drop skip).take limit)

/-- `JournalService.get_entry(db, entry_id, user_id)`:
`filter(id == entry_id, user_id == user_id).first()`. -/
def get_entry (rows : List JournalEntryRow) (entry_id user_id : Nat) :
    Option JournalEntryRow :=
  rows.find? fun e => e.id == entry_id && e.user_id == user_id

/-- `JournalService.delete_entry(db, entry_id, user_id)`: find the row; if
present delete and commit and return `True`, else return `False`. -/
def delete_entry (rows : List JournalEntryRow) (entry_id user_id : Nat) :
    Bool × List JournalEntryRow :=
  match rows.find? fun e => e.id == entry_id && e.user_id == user_id with
  | some entry => (true, rows.erase entry)
  | none => (false, rows)

/-- `delete_journal_entry` (router): raise `HTTPException(404, "Journal
entry not found")` when the service reports failure, else return the
success message.  Result: `(raised exception or returned value, table
after the call)`. -/
def delete_journal_entry (rows : List JournalEntryRow)
    (entry_id user_id : Nat) :
    Except HTTPException String × List JournalEntryRow :=
  let r := delete_entry rows entry_id user_id
  if r.1 then (Except.ok "Journal entry deleted successfully", r.2)
  else (Except.error ⟨404, "Journal entry not found"⟩, r.2)

/-! ## Mood entries (`routers/mood.py`, `services/mood_service.py`) -/

/-- The request schema `MoodEntryCreate` (`schemas/mood.py`); `mood_value`
is a Pydantic `float`, modelled as `ℚ`. -/
structure MoodEntryCreate where
  mood_value : ℚ
  mood_emoji : Option String
  notes : Option String
deriving DecidableEq

/-- A row of the `mood_entries` table (`models/mood.py`). -/
structure MoodEntryRow where
  id : Nat
  user_id : Nat
  mood_value : ℚ
  mood_emoji : Option String
  notes : Option String
  created_at : Nat
deriving DecidableEq

namespace MoodService

/-- `MoodService.create_mood_entry(db, mood_entry, user_id)`: build, add,
commit, refresh, return.  As for journal entries, `new_id` and `now` are
database-assigned inputs. -/
def create_mood_entry (rows : List MoodEntryRow) (mood_entry : MoodEntryCreate)
    (user_id new_id now : Nat) : MoodEntryRow × List MoodEntryRow :=
  let db_entry : MoodEntryRow :=
    ⟨new_id, user_id, mood_entry.mood_value, mood_entry.mood_emoji,
      mood_entry.notes, now⟩
  (db_entry, rows ++ [db_entry])

/-- `MoodService.get_user_mood_entries(db, user_id, skip, limit)`: same
query shape as `JournalService.get_user_entries`. -/
def get_user_mood_entries (rows : List MoodEntryRow)
    (user_id skip limit : Nat) : List MoodEntryRow :=
  ((((rows.filter fun e => e.user_id == user_id).mergeSort
      fun a b => decide (b.created_at ≤ a.created_at)).drop skip).take limit)

end MoodService

/-- `create_mood_entry` (router): `if mood_entry.mood_value < 1 or
mood_entry.mood_value > 10: raise HTTPException(400, ...)`, else delegate
to the service.  Result: `(raised exception or returned entity, table
after the call)`. -/
def create_mood_entry (rows : List MoodEntryRow) (mood_entry : MoodEntryCreate)
    (user_id new_id now : Nat) :
    Except HTTPException MoodEntryRow × List MoodEntryRow :=
  if mood_entry.mood_value < 1 ∨ 10 < mood_entry.mood_value then
    (Except.error ⟨400, "Mood value must be between 1 and 10"⟩, rows)
  else
    let r := MoodService.create_mood_entry rows mood_entry user_id new_id now
    (Except.ok r.1, r.2)

/-! ## Helper lemmas -/

theorem truncate_history_spec (t : List ChatMsg) :
    ∃ t2, truncate_history (system_message :: t) = system_message :: t2 ∧
      t2.length ≤ 20 := by
  by_cases h21 : 21 < (system_message :: t).length
  · refine ⟨last_slice 16 (system_message :: t), ?_, ?_⟩
    · unfold truncate_history
      rw [if_pos h21]
    · unfold last_slice
      simp only [List.length_drop, List.length_cons] at h21 ⊢
      omega
  · refine ⟨t, ?_, ?_⟩
    · unfold truncate_history
      rw [if_neg h21]
    · simp only [List.length_cons] at h21
      omega

theorem process_message_true (outcome : ApiOutcome) (stored : Option (List ChatMsg))
    (message : String) :
    process_message true outcome stored message =
      (some (process_with_openai stored message outcome).1,
       some (process_with_openai stored message outcome).2.1,
       (process_with_openai stored message outcome).2.2) := rfl

theorem process_message_false (outcome : ApiOutcome) (stored : Option (List ChatMsg))
    (message : String) :
    process_message false outcome stored message =
      (stored, none, get_fallback_response message "no_api_key") := rfl

theorem process_with_openai_cons (t0 : List ChatMsg) (message : String)
    (outcome : ApiOutcome) :
    ((process_with_openai (some (system_message :: t0)) message outcome).1.head? =
        some system_message ∧
     (process_with_openai (some (system_message :: t0)) message outcome).1.length ≤ 22) ∧
    ((process_with_openai (some (system_message :: t0)) message outcome).2.1.head? =
        some system_message ∧
     (process_with_openai (some (system_message :: t0)) message outcome).2.1.length ≤ 21) := by
  obtain ⟨t2, ht2, hlen2⟩ := truncate_history_spec (t0 ++ [⟨Role.user, message⟩])
  cases outcome <;>
    simp only [process_with_openai, List.cons_append, ht2] <;>
    refine ⟨⟨?_, ?_⟩, ?_, ?_⟩ <;>
    simp only [List.head?_cons, List.cons_append, List.length_cons,
      List.length_append, List.length_nil] <;>
    omega

theorem process_with_openai_spec (stored : Option (List ChatMsg))
    (message : String) (outcome : ApiOutcome)
    (hs : ∀ h0, stored = some h0 → h0.head? = some system_message ∧ h0.length ≤ 22) :
    ((process_with_openai stored message outcome).1.head? = some system_message ∧
     (process_with_openai stored message outcome).1.length ≤ 22) ∧
    ((process_with_openai stored message outcome).2.1.head? = some system_message ∧
     (process_with_openai stored message outcome).2.1.length ≤ 21) := by
  cases stored with
  | none =>
      have h := process_with_openai_cons [] message outcome
      have hnone : process_with_openai none message outcome =
          process_with_openai (some [system_message]) message outcome := rfl
      rw [hnone]
      exact h
  | some h0 =>
      obtain ⟨hh, _⟩ := hs h0 rfl
      cases h0 with
      | nil => simp at hh
      | cons a t0 =>
          simp only [List.head?_cons, Option.some.injEq] at hh
          subst hh
          exact process_with_openai_cons t0 message outcome

theorem service_step_inv (m : String → Option (List ChatMsg)) (c : ChatCall)
    (hm : ChatInv m) :
    ChatInv (service_step m c).1 ∧
    (∀ s, (service_step m c).2 = some s →
      s.head? = some system_message ∧ s.length ≤ 21) := by
  obtain ⟨cfg, outcome, cuid, msg⟩ := c
  cases cfg with
  | false =>
      simp only [service_step, process_message_false]
      constructor
      · intro uid h hh
        dsimp only at hh
        by_cases he : uid = cuid
        · subst he
          rw [if_pos rfl] at hh
          exact hm _ _ hh
        · rw [if_neg he] at hh
          exact hm _ _ hh
      · intro s hs
        simp at hs
  | true =>
      simp only [service_step, process_message_true]
      have spec := process_with_openai_spec (m cuid) msg outcome
        (fun h0 hh => hm _ _ hh)
      constructor
      · intro uid h hh
        dsimp only at hh
        by_cases he : uid = cuid
        · subst he
          rw [if_pos rfl] at hh
          injection hh with hh2
          subst hh2
          exact spec.1
        · rw [if_neg he] at hh
          exact hm _ _ hh
      · intro s hs
        injection hs with hs2
        subst hs2
        exact spec.2

theorem run_from_inv (cs : List ChatCall) :
    ∀ m, ChatInv m →
      ChatInv (run_from m cs).1 ∧
      ∀ s ∈ (run_from m cs).2,
        s.head? = some system_message ∧ s.length ≤ 21 := by
  induction cs with
  | nil => intro m hm; exact ⟨hm, by simp [run_from]⟩
  | cons c cs ih =>
      intro m hm
      obtain ⟨h1, h2⟩ := service_step_inv m c hm
      obtain ⟨ih1, ih2⟩ := ih _ h1
      refine ⟨ih1, ?_⟩
      intro s hsmem
      simp only [run_from] at hsmem
      cases hsent : (service_step m c).2 with
      | none =>
          rw [hsent] at hsmem
          exact ih2 s hsmem
      | some sent =>
          rw [hsent] at hsmem
          simp only [List.mem_cons] at hsmem
          rcases hsmem with rfl | hsmem
          · exact h2 s hsent
          · exact ih2 s hsmem

theorem get_fallback_eq_chain (m e : String) :
    get_fallback_response m e = fallback_chain m := by
  unfold get_fallback_response fallback_body fallback_chain
  by_cases h1 : any_keyword crisis_keywords m.toLower <;>
  by_cases h2 : any_keyword sad_keywords m.toLower <;>
  by_cases h3 : any_keyword angry_keywords m.toLower <;>
  by_cases h4 : any_keyword lonely_keywords m.toLower <;>
  by_cases h5 : any_keyword guilt_keywords m.toLower <;>
  by_cases h6 : any_keyword help_keywords m.toLower <;>
  by_cases h7 : any_keyword miss_keywords m.toLower <;>
  simp [h1, h2, h3, h4, h5, h6, h7, bind, Except.bind, pure, Except.pure, throw,
    throwThe, MonadExceptOf.throw]

theorem fallback_chain_canned (m : String) :
    fallback_chain m ∈ canned_responses := by
  unfold fallback_chain canned_responses
  by_cases h1 : any_keyword crisis_keywords m.toLower <;>
  by_cases h2 : any_keyword sad_keywords m.toLower <;>
  by_cases h3 : any_keyword angry_keywords m.toLower <;>
  by_cases h4 : any_keyword lonely_keywords m.toLower <;>
  by_cases h5 : any_keyword guilt_keywords m.toLower <;>
  by_cases h6 : any_keyword help_keywords m.toLower <;>
  by_cases h7 : any_keyword miss_keywords m.toLower <;>
  simp [h1, h2, h3, h4, h5, h6, h7]

theorem query_pipeline_spec {α : Type} (f : α → Nat) (p : α → Bool)
    (l : List α) (skip limit : Nat) :
    ((((l.filter p).mergeSort fun a b => decide (f b ≤ f a)).drop skip).take
        limit).all p = true ∧
    List.Pairwise (fun a b => f b ≤ f a)
      ((((l.filter p).mergeSort fun a b => decide (f b ≤ f a)).drop skip).take
        limit) ∧
    ((((l.filter p).mergeSort fun a b => decide (f b ≤ f a)).drop skip).take
        limit).length ≤ limit := by
  refine ⟨?_, ?_, ?_⟩
  · rw [List.all_eq_true]
    intro e he
    have h1 : e ∈ ((l.filter p).mergeSort fun a b => decide (f b ≤ f a)) :=
      List.mem_of_mem_drop (List.mem_of_mem_take he)
    have h2 : e ∈ l.filter p := List.mem_mergeSort.mp h1
    exact (List.mem_filter.mp h2).2
  · have hs := @List.sorted_mergeSort α (fun a b => decide (f b ≤ f a))
      (by intro a b c hab hbc; simp only [decide_eq_true_iff] at *; omega)
      (by intro a b; simp only [Bool.or_eq_true, decide_eq_true_iff]
          exact (Nat.le_total (f b) (f a)))
      (l.filter p)
    have hsub : ((((l.filter p).mergeSort fun a b => decide (f b ≤ f a)).drop
        skip).take limit).Sublist
        ((l.filter p).mergeSort fun a b => decide (f b ≤ f a)) :=
      (List.take_sublist _ _).trans (List.drop_sublist _ _)
    exact (hs.sublist hsub).imp (by intro a b h; simpa using h)
  · exact List.length_take_le _ _

/-! ## Claim theorems -/

/-- C1: For every user id and every sequence of `process_message` calls, the
per-user conversation history always begins with the fixed system prompt and
has at most 22 entries; every message list sent to the completion API begins
with the system prompt and has at most 21 entries; and whenever the list
exceeds 21 entries after the user message is appended, it is truncated to
the first entry (the system prompt) plus the 16 most recent entries before
being sent. -/
theorem chat_history_bounded (calls : List ChatCall) :
    (∀ uid h, service_run calls uid = some h →
       h.head? = some system_message ∧ h.length ≤ 22) ∧
    (∀ s ∈ sent_lists calls,
       s.head? = some system_message ∧ s.length ≤ 21) ∧
    (∀ (x : ChatMsg) (t : List ChatMsg), 21 < (x :: t).length →
       truncate_history (x :: t) = x :: last_slice 16 (x :: t)) := by
  have h0 : ChatInv (fun _ => none) := by
    intro uid h hh
    simp at hh
  refine ⟨(run_from_inv calls _ h0).1, (run_from_inv calls _ h0).2, ?_⟩
  intro x t h
  unfold truncate_history
  rw [if_pos h]

/-- Witness for C1: one configured call (whose API call raises
`openai.APIError`) by user `"u"` with message `"hi"`, evaluated concretely,
plus the truncation rule at a 22-entry list. -/
theorem chat_history_bounded_w :
    (([system_message, ⟨Role.user, "hi"⟩] : List ChatMsg).head? =
        some system_message ∧
     ([system_message, ⟨Role.user, "hi"⟩] : List ChatMsg).length ≤ 22) ∧
    (([system_message, ⟨Role.user, "hi"⟩] : List ChatMsg).head? =
        some system_message ∧
     ([system_message, ⟨Role.user, "hi"⟩] : List ChatMsg).length ≤ 21) ∧
    truncate_history (system_message :: List.replicate 21 ⟨Role.user, "x"⟩) =
      system_message ::
        last_slice 16 (system_message :: List.replicate 21 ⟨Role.user, "x"⟩) :=
  ⟨(chat_history_bounded [⟨true, ApiOutcome.api_error, "u", "hi"⟩]).1 "u"
      [system_message, ⟨Role.user, "hi"⟩] rfl,
   (chat_history_bounded [⟨true, ApiOutcome.api_error, "u", "hi"⟩]).2.1
      [system_message, ⟨Role.user, "hi"⟩] (List.Mem.head _),
   (chat_history_bounded []).2.2 system_message
      (List.replicate 21 ⟨Role.user, "x"⟩) (by decide)⟩

/-- C2 (counterexample): a session that already holds 50 turns exceeds the
bound after one more frame on the anonymous WebSocket endpoint — that
endpoint appends without truncating, so the stored list reaches 51
entries. -/
theorem anonymous_ws_unbounded_cx :
    ¬ ((anonymous_websocket_store
        (fun s => if s = "s" then List.replicate 50 ⟨"m", "r", "now"⟩ else [])
        "s" ⟨"m", "r", "now"⟩) "s").length ≤ 50 := by decide

/-- C2 (amended): after `send_anonymous_message` the stored list of the
session has at most 50 entries; `anonymous_websocket_endpoint` appends
without truncation, so after it the stored list has exactly one entry more
than before (and can exceed 50). -/
theorem anonymous_sessions_bounds (sessions : String → List AnonTurn)
    (session_id : String) (t : AnonTurn) :
    ((send_anonymous_message_store sessions session_id t) session_id).length ≤ 50 ∧
    ((anonymous_websocket_store sessions session_id t) session_id).length =
      (sessions session_id).length + 1 := by
  constructor
  · simp only [send_anonymous_message_store, if_true]
    unfold rest_anonymous_append last_slice
    by_cases h : 50 < ((sessions session_id) ++ [t]).length
    · rw [if_pos h]
      simp only [List.length_drop]
      omega
    · rw [if_neg h]
      omega
  · simp only [anonymous_websocket_store, if_true]
    simp [ws_anonymous_append]

/-- C3: `process_message` is total (it returns a response string for every
input; its Lean model needs no error result), and when the client is not
configured or the completion call raises, the returned value is the canned
reply selected by keyword matching on the lowercased message — one of the
eight static fallback texts. -/
theorem process_message_fallback (configured : Bool) (outcome : ApiOutcome)
    (stored : Option (List ChatMsg)) (message : String)
    (herr : configured = false ∨ is_api_failure outcome = true) :
    (process_message configured outcome stored message).2.2 =
      fallback_chain message ∧
    fallback_chain message ∈ canned_responses := by
  refine ⟨?_, fallback_chain_canned message⟩
  cases configured with
  | false => simp [process_message_false, get_fallback_eq_chain]
  | true =>
      rcases herr with h | h
      · exact absurd h (by simp)
      · cases outcome with
        | success reply => simp [is_api_failure] at h
        | api_error =>
            simp [process_message_true, process_with_openai, get_fallback_eq_chain]
        | rate_limit_error =>
            simp [process_message_true, process_with_openai, get_fallback_eq_chain]
        | general_error =>
            simp [process_message_true, process_with_openai, get_fallback_eq_chain]

/-- Witness for C3: an unconfigured client and the message `"hello"`. -/
theorem process_message_fallback_w :
    (process_message false (ApiOutcome.success "x") none "hello").2.2 =
      fallback_chain "hello" ∧
    fallback_chain "hello" ∈ canned_responses :=
  process_message_fallback false (ApiOutcome.success "x") none "hello" (Or.inl rfl)

/-- C4 (counterexample): a text frame that is not a JSON object with a
`"message"` key (e.g. the frame `"hi"`, modelled by `message_field = none`)
makes `json.loads(data)["message"]` raise: nothing is persisted and nothing
is sent, refuting the claim for that frame. -/
theorem support_malformed_frame_cx :
    support_handle_frame (fun _ => [1]) [] "general" ⟨1, "alice"⟩ 0 none =
      none := rfl

/-- C4 (amended): for every text frame that is a JSON object with a
`"message"` key, the handler first persists a `SupportMessage` row carrying
the user id, room id and message text, then sends the broadcast payload
(username, message, timestamp) to exactly the connections registered in that
room's list — the persist event precedes every send, and no connection
outside the room's list is sent anything. -/
theorem support_frame_persists_then_broadcasts
    (conns : String → List Nat) (db : List SupportMessageRow) (room : String)
    (user : UserRow) (now : Nat) (m : String) :
    support_handle_frame conns db room user now (some m) =
      some (db ++ [⟨user.id, room, m, now⟩],
        SupportEvent.persist ⟨user.id, room, m, now⟩ ::
          ((conns room).map fun c => SupportEvent.send c ⟨user.username, m, now⟩)) ∧
    (∀ c payload,
      SupportEvent.send c payload ∈
        (SupportEvent.persist (⟨user.id, room, m, now⟩ : SupportMessageRow) ::
          ((conns room).map fun c2 => SupportEvent.send c2 ⟨user.username, m, now⟩)) →
      c ∈ conns room) := by
  refine ⟨rfl, ?_⟩
  intro c payload hc
  simp only [List.mem_cons, List.mem_map] at hc
  rcases hc with h | ⟨a, ha, hEq⟩
  · simp at h
  · injection hEq with h1 h2
    exact h1 ▸ ha

/-- Witness for the amended C4: room `"general"` with one connection `7`,
user `alice`, frame carrying message `"hello"`. -/
theorem support_frame_w :
    support_handle_frame (fun _ => [7]) [] "general" ⟨1, "alice"⟩ 0 (some "hello") =
      some ([⟨1, "general", "hello", 0⟩],
        [SupportEvent.persist ⟨1, "general", "hello", 0⟩,
         SupportEvent.send 7 ⟨"alice", "hello", 0⟩]) ∧
    (7 : Nat) ∈ [7] :=
  ⟨(support_frame_persists_then_broadcasts (fun _ => [7]) [] "general"
      ⟨1, "alice"⟩ 0 "hello").1,
   (support_frame_persists_then_broadcasts (fun _ => [7]) [] "general"
      ⟨1, "alice"⟩ 0 "hello").2 7 ⟨"alice", "hello", 0⟩ (by decide)⟩

/-- C5: the journal create endpoint returns exactly the persisted entity:
the returned row carries the request's title and content, the authenticated
user's id, `is_voice_entry = false`, and the table after the call contains
that row (it is the appended last row). -/
theorem create_entry_returns_persisted (rows : List JournalEntryRow)
    (entry : JournalEntryCreate) (user_id new_id now : Nat) :
    (create_journal_entry rows entry user_id new_id now).1.title = entry.title ∧
    (create_journal_entry rows entry user_id new_id now).1.content = entry.content ∧
    (create_journal_entry rows entry user_id new_id now).1.user_id = user_id ∧
    (create_journal_entry rows entry user_id new_id now).1.is_voice_entry = false ∧
    (create_journal_entry rows entry user_id new_id now).2 =
      rows ++ [(create_journal_entry rows entry user_id new_id now).1] ∧
    (create_journal_entry rows entry user_id new_id now).1 ∈
      (create_journal_entry rows entry user_id new_id now).2 := by
  refine ⟨rfl, rfl, rfl, rfl, rfl, ?_⟩
  simp [create_journal_entry, create_entry]

/-- C6: listing journal entries (and likewise mood entries) returns only
rows whose `user_id` is the authenticated user's, in `created_at`-descending
order, at most `limit` of them (after dropping the first `skip` of the
sorted filtered rows). -/
theorem entries_scoped_to_user (jrows : List JournalEntryRow)
    (mrows : List MoodEntryRow) (user_id skip limit : Nat) :
    ((get_user_entries jrows user_id skip limit).all
        fun e => e.user_id == user_id) = true ∧
    List.Pairwise (fun a b => b.created_at ≤ a.created_at)
      (get_user_entries jrows user_id skip limit) ∧
    (get_user_entries jrows user_id skip limit).length ≤ limit ∧
    ((MoodService.get_user_mood_entries mrows user_id skip limit).all
        fun e => e.user_id == user_id) = true ∧
    List.Pairwise (fun a b => b.created_at ≤ a.created_at)
      (MoodService.get_user_mood_entries mrows user_id skip limit) ∧
    (MoodService.get_user_mood_entries mrows user_id skip limit).length ≤ limit := by
  obtain ⟨j1, j2, j3⟩ := query_pipeline_spec (fun e => e.created_at)
    (fun e => e.user_id == user_id) jrows skip limit
  obtain ⟨m1, m2, m3⟩ := query_pipeline_spec (fun e => e.created_at)
    (fun e => e.user_id == user_id) mrows skip limit
  exact ⟨j1, j2, j3, m1, m2, m3⟩

/-- C7: deleting a journal entry that does not exist for the authenticated
user raises HTTP 404 (`"Journal entry not found"`) and leaves the table
unchanged; deleting an existing entry removes exactly that row, returns the
success message, and a subsequent get of the same id finds nothing (given
the primary-key property that row ids are distinct). -/
theorem delete_entry_not_found (rows : List JournalEntryRow)
    (entry_id user_id : Nat)
    (hnodup : (rows.map fun e => e.id).Nodup) :
    (get_entry rows entry_id user_id = none →
      delete_journal_entry rows entry_id user_id =
        (Except.error ⟨404, "Journal entry not found"⟩, rows)) ∧
    (∀ e, get_entry rows entry_id user_id = some e →
      delete_journal_entry rows entry_id user_id =
        (Except.ok "Journal entry deleted successfully", rows.erase e) ∧
      get_entry (rows.erase e) entry_id user_id = none) := by
  have hrownodup : rows.Nodup := List.Nodup.of_map _ hnodup
  constructor
  · intro hnone
    unfold get_entry at hnone
    unfold delete_journal_entry delete_entry
    rw [hnone]
    rfl
  · intro e he
    unfold get_entry at he
    have hmem := List.mem_of_find?_eq_some he
    have hpred := List.find?_some he
    simp only [Bool.and_eq_true, beq_iff_eq] at hpred
    obtain ⟨hid, _⟩ := hpred
    constructor
    · unfold delete_journal_entry delete_entry
      rw [he]
      rfl
    · unfold get_entry
      rw [List.find?_eq_none]
      intro a ha hpa
      simp only [Bool.and_eq_true, beq_iff_eq] at hpa
      obtain ⟨haid, _⟩ := hpa
      have hane : a ≠ e := ((List.Nodup.mem_erase_iff hrownodup).mp ha).1
      have hain : a ∈ rows := ((List.Nodup.mem_erase_iff hrownodup).mp ha).2
      exact hane (List.inj_on_of_nodup_map hnodup hain hmem (by rw [haid, hid]))

/-- Witness for C7: a one-row table owned by user 7; deleting id 1 removes
the row and a subsequent get returns nothing. -/
theorem delete_entry_not_found_w :
    delete_journal_entry [⟨1, 7, "t", none, none, false, 0⟩] 1 7 =
      (Except.ok "Journal entry deleted successfully",
        ([⟨1, 7, "t", none, none, false, 0⟩] : List JournalEntryRow).erase
          ⟨1, 7, "t", none, none, false, 0⟩) ∧
    get_entry (([⟨1, 7, "t", none, none, false, 0⟩] :
        List JournalEntryRow).erase ⟨1, 7, "t", none, none, false, 0⟩) 1 7 =
      none :=
  (delete_entry_not_found [⟨1, 7, "t", none, none, false, 0⟩] 1 7 (by decide)).2
    ⟨1, 7, "t", none, none, false, 0⟩ (by decide)

/-- C8 (counterexample): the `HTTPException(404, "Journal entry not found")`
raised by the journal delete endpoint escapes its handler, yet the
application renders it as a 404 response with that detail — not as the
global handler's 500 body — because the framework dispatches
`HTTPException` to its own handler. -/
theorem http_exception_not_500_cx :
    (delete_journal_entry [] 1 7).1 =
      Except.error ⟨404, "Journal entry not found"⟩ ∧
    app_exception_response (RaisedException.http ⟨404, "Journal entry not found"⟩) =
      ⟨404, "Journal entry not found"⟩ ∧
    app_exception_response (RaisedException.http ⟨404, "Journal entry not found"⟩) ≠
      ⟨500, "Internal server error. Please try again later."⟩ :=
  ⟨rfl, rfl, by decide⟩

/-- C8 (amended): every uncaught exception other than `HTTPException` is
converted by `global_exception_handler` into the HTTP 500 JSON response
`{"detail": "Internal server error. Please try again later."}`; and the
registered handler itself returns that response for whatever reaches it. -/
theorem uncaught_exception_500 (descr : String) (e : RaisedException) :
    app_exception_response (RaisedException.other descr) =
      ⟨500, "Internal server error. Please try again later."⟩ ∧
    global_exception_handler e =
      ⟨500, "Internal server error. Please try again later."⟩ :=
  ⟨rfl, rfl⟩

/-- C9: `_get_fallback_response` returns the same reply for any two
`error_type` values — the result is `fallback_chain message`, determined
only by the lowercased message's keywords, because every branch of the
keyword chain returns before the error-type suffix statements are reached. -/
theorem fallback_ignores_error_type (m e1 e2 : String) :
    get_fallback_response m e1 = get_fallback_response m e2 ∧
    get_fallback_response m e1 = fallback_chain m :=
  ⟨(get_fallback_eq_chain m e1).trans (get_fallback_eq_chain m e2).symm,
   get_fallback_eq_chain m e1⟩

/-- C10: the mood create endpoint raises HTTP 400 (`"Mood value must be
between 1 and 10"`) iff `mood_value < 1` or `mood_value > 10`, leaving the
table unchanged in that case; for `1 ≤ mood_value ≤ 10` the row with the
request's values and the authenticated user's id is persisted and
returned. -/
theorem mood_value_validated (rows : List MoodEntryRow)
    (mood_entry : MoodEntryCreate) (user_id new_id now : Nat) :
    ((create_mood_entry rows mood_entry user_id new_id now).1 =
        Except.error ⟨400, "Mood value must be between 1 and 10"⟩ ↔
      (mood_entry.mood_value < 1 ∨ 10 < mood_entry.mood_value)) ∧
    (mood_entry.mood_value < 1 ∨ 10 < mood_entry.mood_value →
      (create_mood_entry rows mood_entry user_id new_id now).2 = rows) ∧
    (1 ≤ mood_entry.mood_value ∧ mood_entry.mood_value ≤ 10 →
      create_mood_entry rows mood_entry user_id new_id now =
        (Except.ok ⟨new_id, user_id, mood_entry.mood_value,
            mood_entry.mood_emoji, mood_entry.notes, now⟩,
          rows ++ [⟨new_id, user_id, mood_entry.mood_value,
            mood_entry.mood_emoji, mood_entry.notes, now⟩])) := by
  unfold create_mood_entry
  by_cases h : mood_entry.mood_value < 1 ∨ 10 < mood_entry.mood_value
  · rw [if_pos h]
    refine ⟨⟨fun _ => h, fun _ => rfl⟩, fun _ => rfl, ?_⟩
    rintro ⟨h1, h2⟩
    rcases h with h | h
    · exact absurd h (not_lt.mpr h1)
    · exact absurd h (not_lt.mpr h2)
  · rw [if_neg h]
    refine ⟨⟨fun hEq => absurd hEq (by simp), fun hlt => absurd hlt h⟩,
      fun hlt => absurd hlt h, fun _ => rfl⟩

/-- Witness for C10: mood value 0 is rejected leaving the table unchanged;
mood value 5 is persisted and returned. -/
theorem mood_value_validated_w :
    (create_mood_entry [] ⟨0, none, none⟩ 7 1 0).2 = ([] : List MoodEntryRow) ∧
    create_mood_entry [] ⟨5, none, none⟩ 7 1 0 =
      (Except.ok ⟨1, 7, 5, none, none, 0⟩, [⟨1, 7, 5, none, none, 0⟩]) :=
  ⟨(mood_value_validated [] ⟨0, none, none⟩ 7 1 0).2.1 (Or.inl (by norm_num)),
   (mood_value_validated [] ⟨5, none, none⟩ 7 1 0).2.2 ⟨by norm_num, by norm_num⟩⟩
